import Mathlib

/-!
Verification of the edulog-pdf data-normalization and threshold-scoring
pipeline.  The JavaScript sources are shallowly embedded: JavaScript values
are modelled by `JVal` (with `JNum` for numbers, `JNum.nan` standing for
`NaN`), objects by association lists in source order, and the per-folder
adapter functions (`processData`, `getFallbackData`, `fetchData`) as well as
the shared service (`EdulogApiService.processApiData`, `calculateAge`) are
translated definition by definition from
`src/aMerkfaehigkeit/api-functions.js`, `src/figurGrundS/api-functions.js`,
`src/mZeichnen/api-functions.js` and `src/unnamed/part_001`.

JavaScript numbers are modelled as integers-or-NaN; the claims under study
only involve integer arithmetic, comparisons and NaN propagation.  String
to number coercion (`Number`, `parseInt`) is modelled on the decimal-integer
fragment: a string that is not an optionally-signed decimal integer coerces
to `NaN`, as every string appearing in the claims does.
-/

/-- A JavaScript number: either `NaN` or an integer. -/
inductive JNum where
  | nan
  | int (n : Int)
deriving DecidableEq, Repr

/-- A JavaScript value: `undefined`, `null`, booleans, numbers, strings,
arrays and plain objects (own enumerable fields, in insertion order). -/
inductive JVal where
  | vUndef
  | vNull
  | vBool (b : Bool)
  | vNum (n : JNum)
  | vStr (s : String)
  | vArr (elems : List JVal)
  | vObj (fields : List (String × JVal))

open JVal JNum

/-- A JavaScript object as an association list in insertion order. -/
abbrev JObj := List (String × JVal)

/-- Split a character list at a separator character (JavaScript
`String.prototype.split` with a one-character separator). -/
def splitCharsAux (sep : Char) : List Char → List Char → List (List Char)
  | [], acc => [acc.reverse]
  | c :: cs, acc =>
    if c = sep then acc.reverse :: splitCharsAux sep cs []
    else splitCharsAux sep cs (c :: acc)

/-- JavaScript `s.split(sep)` for a one-character separator. -/
def splitOnChar (sep : Char) (s : String) : List String :=
  (splitCharsAux sep s.data []).map (fun l => String.mk l)

/-- Whitespace-trimming on both ends (JavaScript `String.prototype.trim`). -/
def jsTrim (s : String) : String :=
  String.mk (((s.data.dropWhile Char.isWhitespace).reverse.dropWhile
    Char.isWhitespace).reverse)

/-- Leading-whitespace trimming, as done by JavaScript `parseInt`. -/
def jsTrimLeft (s : String) : String :=
  String.mk (s.data.dropWhile Char.isWhitespace)

/-- JavaScript `s.includes(c)` for a one-character needle. -/
def strContainsChar (c : Char) (s : String) : Bool :=
  s.data.contains c

/-- Numeric value of a list of decimal digits. -/
def digitsToNat (cs : List Char) : Nat :=
  cs.foldl (fun acc c => acc * 10 + (c.toNat - '0'.toNat)) 0

/-- JavaScript `Number(s)` on a string, restricted to the decimal-integer
fragment: trimmed empty string is `0`, an optionally signed digit string is
its value, anything else is `NaN`. -/
def strToNumber (s : String) : JNum :=
  let t := jsTrim s
  if t = "" then .int 0
  else
    let cs := t.data
    let (sign, ds) : Int × List Char :=
      match cs with
      | '-' :: rest => (-1, rest)
      | '+' :: rest => (1, rest)
      | _ => (1, cs)
    if ds ≠ [] ∧ ds.all (·.isDigit) then .int (sign * (digitsToNat ds : Int))
    else .nan

/-- JavaScript `parseInt(s, 10)`: skip leading whitespace, optional sign,
then the longest leading digit run; no digits means `NaN`. -/
def parseIntJs (s : String) : JNum :=
  let cs := (jsTrimLeft s).data
  let (sign, rest) : Int × List Char :=
    match cs with
    | '-' :: r => (-1, r)
    | '+' :: r => (1, r)
    | _ => (1, cs)
  let ds := rest.takeWhile (·.isDigit)
  if ds.isEmpty then .nan else .int (sign * (digitsToNat ds : Int))

/-- Rendering of a JavaScript number by a template literal. -/
def jnumToString : JNum → String
  | .nan => "NaN"
  | .int k => toString k

mutual
/-- JavaScript `String(v)` / template-literal interpolation. -/
def jsToString : JVal → String
  | vUndef => "undefined"
  | vNull => "null"
  | vBool true => "true"
  | vBool false => "false"
  | vNum n => jnumToString n
  | vStr s => s
  | vArr l => jsListToString l
  | vObj _ => "[object Object]"

/-- JavaScript `Array.prototype.join(",")`: `null` and `undefined` elements
render as the empty string. -/
def jsListToString : List JVal → String
  | [] => ""
  | [vNull] => ""
  | [vUndef] => ""
  | [x] => jsToString x
  | vNull :: y :: xs => "," ++ jsListToString (y :: xs)
  | vUndef :: y :: xs => "," ++ jsListToString (y :: xs)
  | x :: y :: xs => jsToString x ++ "," ++ jsListToString (y :: xs)
end

/-- JavaScript truthiness. -/
def truthy : JVal → Bool
  | vUndef => false
  | vNull => false
  | vBool b => b
  | vNum .nan => false
  | vNum (.int k) => k != 0
  | vStr s => s != ""
  | vArr _ => true
  | vObj _ => true

/-- JavaScript `ToNumber`.  A plain object coerces to `NaN` (via the string
`"[object Object]"`); an array coerces through its joined string form. -/
def toNumber : JVal → JNum
  | vUndef => .nan
  | vNull => .int 0
  | vBool true => .int 1
  | vBool false => .int 0
  | vNum n => n
  | vStr s => strToNumber s
  | vArr l => strToNumber (jsListToString l)
  | vObj _ => .nan

/-- JavaScript `a || b`. -/
def jvOr (a b : JVal) : JVal := if truthy a then a else b

/-- Field lookup on an object's association list, later bindings taking
precedence (as in object-literal/spread evaluation); `none` when absent. -/
def objGet (o : JObj) (k : String) : Option JVal :=
  o.foldl (fun acc p => if p.1 == k then some p.2 else acc) none

/-- Field lookup defaulting to `undefined`, as JavaScript member access. -/
def objGetD (o : JObj) (k : String) : JVal := (objGet o k).getD vUndef

/-- The keys of an object, in insertion order. -/
def objKeys (o : JObj) : List String := o.map Prod.fst

/-- JavaScript member access `v.k`.  Member access on `null`/`undefined`
throws in JavaScript; in the embedded code every such access is guarded by a
truthiness check, so the `vUndef` result for those cases is never observed. -/
def jGet (v : JVal) (k : String) : JVal :=
  match v with
  | vObj fs => objGetD fs k
  | _ => vUndef

/-- JavaScript `v[0]`, as used in `data[0] || data`. -/
def jIndex0 : JVal → JVal
  | vArr (x :: _) => x
  | vArr [] => vUndef
  | vObj fs => objGetD fs "0"
  | vStr s =>
    match s.data with
    | [] => vUndef
    | c :: _ => vStr (String.mk [c])
  | _ => vUndef

/-- JavaScript `a - b` on numbers (`NaN` absorbing). -/
def jsub : JNum → JNum → JNum
  | .int a, .int b => .int (a - b)
  | _, _ => .nan

/-- JavaScript `a + b` on numbers (`NaN` absorbing). -/
def jadd : JNum → JNum → JNum
  | .int a, .int b => .int (a + b)
  | _, _ => .nan

/-- JavaScript `a < b` on numbers: false whenever either side is `NaN`. -/
def jlt : JNum → JNum → Bool
  | .int a, .int b => a < b
  | _, _ => false

/-- JavaScript `a <= b` on numbers: false whenever either side is `NaN`. -/
def jle : JNum → JNum → Bool
  | .int a, .int b => a ≤ b
  | _, _ => false

/-- JavaScript `n === k` for a number against an integer literal
(`NaN === k` is false). -/
def jeqInt : JNum → Int → Bool
  | .int a, k => a == k
  | .nan, _ => false

/-- JavaScript `Number(x) || 0`: `NaN` (and `0` itself) collapse to `0`. -/
def numOr0 : JNum → Int
  | .nan => 0
  | .int k => k

/-- JavaScript `Number(x) || d` with an integer default `d`. -/
def jnumOrD : JNum → Int → Int
  | .nan, d => d
  | .int 0, d => d
  | .int k, _ => k

/-! ## Dates and `EdulogApiService.calculateAge` (src/unnamed/part_001, lines 310-359) -/

/-- The observable components of a JavaScript `Date`: `getFullYear()`,
`getMonth()` (0-based) and `getDate()`.  An *Invalid Date* has all three
equal to `NaN`. -/
structure JsDate where
  year : JNum
  month : JNum
  day : JNum

/-- The Invalid Date. -/
def invalidDate : JsDate := ⟨.nan, .nan, .nan⟩

/-- Days since 1970-01-01 of a civil date (year, month 1-12, day 1-31),
Hinnant's algorithm with floor division. -/
def daysFromCivil (y m d : Int) : Int :=
  let y := if m ≤ 2 then y - 1 else y
  let era := y.fdiv 400
  let yoe := y - era * 400
  let mp := (m + 9).emod 12
  let doy := (153 * mp + 2).fdiv 5 + d - 1
  let doe := yoe * 365 + yoe.fdiv 4 - yoe.fdiv 100 + doy
  era * 146097 + doe - 719468

/-- Civil date (year, month 1-12, day) from days since 1970-01-01. -/
def civilFromDays (z : Int) : Int × Int × Int :=
  let z := z + 719468
  let era := z.fdiv 146097
  let doe := z - era * 146097
  let yoe := (doe - doe.fdiv 1460 + doe.fdiv 36524 - doe.fdiv 146096).fdiv 365
  let y := yoe + era * 400
  let doy := doe - (365 * yoe + yoe.fdiv 4 - yoe.fdiv 100)
  let mp := (5 * doy + 2).fdiv 153
  let d := doy - (153 * mp + 2).fdiv 5 + 1
  let m := if mp < 10 then mp + 3 else mp - 9
  (if m ≤ 2 then y + 1 else y, m, d)

/-- `new Date(year, month, day)`: any `NaN` argument yields an Invalid Date;
a year 0-99 is taken relative to 1900; out-of-range month/day overflow into
neighbouring months exactly as the ECMAScript `MakeDay` normalization. -/
def mkJsDate (yn mn dn : JNum) : JsDate :=
  match yn, mn, dn with
  | .int y, .int m, .int d =>
    let y := if 0 ≤ y ∧ y ≤ 99 then y + 1900 else y
    let ym := y * 12 + m
    let days := daysFromCivil (ym.fdiv 12) (ym.emod 12 + 1) 1 + (d - 1)
    let c := civilFromDays days
    ⟨.int c.1, .int (c.2.1 - 1), .int c.2.2⟩
  | _, _, _ => invalidDate

/-- The ambient clock and external date-string parser that the embedded
functions read: `dateStr` is `new Date().toLocaleDateString('de-DE')`,
`today` the components of `new Date()`, and `parseDateStr` stands for the
generic ECMAScript `new Date(string)` parser (an external black box; the
slash-separated branch of `calculateAge` never consults it). -/
structure Ctx where
  dateStr : String
  todayYear : Int
  todayMonth : Int
  todayDay : Int
  parseDateStr : String → JsDate

/-- `EdulogApiService.calculateAge` (src/unnamed/part_001, lines 310-359).
A falsy birthdate returns `null`.  A non-string truthy birthdate has no
`.includes` method, so the JavaScript body throws a `TypeError` which the
`catch` turns into `'0,0'`.  For a string, the body parses either the
slash-separated day/month/year form or the generic date form and then runs
plain number arithmetic; none of those steps can throw (an unparseable date
is an *Invalid Date*, not an exception), so the `catch` branch is
unreachable and `NaN` propagates into the returned template string. -/
def calculateAge (c : Ctx) (birthdate : JVal) : JVal :=
  if truthy birthdate = false then vNull
  else
    match birthdate with
    | vStr s =>
      let birth : JsDate :=
        if strContainsChar '/' s then
          let parts := splitOnChar '/' s
          if parts.length == 3 then
            mkJsDate (parseIntJs (parts.getD 2 ""))
              (jsub (parseIntJs (parts.getD 1 "")) (.int 1))
              (parseIntJs (parts.getD 0 ""))
          else c.parseDateStr s
        else c.parseDateStr s
      let age0 := jsub (.int c.todayYear) birth.year
      let monthDiff := jsub (.int c.todayMonth) birth.month
      let age :=
        if jlt monthDiff (.int 0) ||
           (jeqInt monthDiff 0 && jlt (.int c.todayDay) birth.day) then
          jsub age0 (.int 1)
        else age0
      let m0 := jsub (.int c.todayMonth) birth.month
      let m1 := if jlt m0 (.int 0) then jadd m0 (.int 12) else m0
      let m2 :=
        if jlt (.int c.todayDay) birth.day then
          let md := jsub m1 (.int 1)
          if jlt md (.int 0) then JNum.int 11 else md
        else m1
      vStr (jnumToString age ++ "," ++ jnumToString m2)
    | _ => vStr "0,0"

/-! ## Thresholds, authentication data, resolver and classifier helpers -/

/-- One entry of `parameters.edulog_thresholds`.  Levels are integers as
the data model prescribes; `min`, `max` and `description2` keep their raw
JavaScript values since the adapters coerce them on use. -/
structure Threshold where
  category : String
  level : Int
  min : JVal
  max : JVal
  description2 : JVal

/-- `einrichtung` / `privat_kunde` entry of the authentication payload. -/
structure AuthInst where
  id : JVal
  name : JVal
  stadt : JVal

/-- The `parameters` block of the authentication payload. -/
structure AuthParams where
  colors : JVal
  edulog_thresholds : Option (List Threshold)

/-- The authentication payload as each adapter's `processData` consumes it;
`none` components model absent/falsy fields. -/
structure AuthData where
  einrichtung : Option AuthInst
  privat_kunde : Option AuthInst
  parameters : Option AuthParams

/-- `thresholds.filter(t => t.category === cat)`. -/
def matchingFor (cat : String) (ths : List Threshold) : List Threshold :=
  ths.filter (fun t => t.category == cat)

/-- Stable insertion of a threshold into a level-sorted list: the new
element goes after all existing elements of less-or-equal level, matching
the stable JavaScript `sort((a, b) => a.level - b.level)`. -/
def insertTh (x : Threshold) : List Threshold → List Threshold
  | [] => [x]
  | y :: ys => if y.level ≤ x.level then y :: insertTh x ys else x :: y :: ys

/-- Stable sort by ascending `level`
(`sort((a, b) => a.level - b.level)`). -/
def sortByLevel : List Threshold → List Threshold
  | [] => []
  | x :: xs => insertTh x (sortByLevel xs)

/-- `min` derivation: `if (level1 && level1.min !== undefined)
min = Number(level1.min)`, with the initial default `0`. -/
def minFromLevel1 (sorted : List Threshold) : JNum :=
  match sorted.find? (fun t => jeqInt (.int t.level) 1) with
  | some t1 =>
    match t1.min with
    | vUndef => .int 0
    | v => toNumber v
  | none => .int 0

/-- `max` derivation: `if (level6 && level6.max !== undefined)
max = Number(level6.max)`, with the initial default `13`. -/
def maxFromLevel6 (sorted : List Threshold) : JNum :=
  match sorted.find? (fun t => jeqInt (.int t.level) 6) with
  | some t6 =>
    match t6.max with
    | vUndef => .int 13
    | v => toNumber v
  | none => .int 13

/-- `ranges = sortedThresholds.map(t => ({start: Number(t.min) || 0,
end: Number(t.max) || 0}))`. -/
def rangesOf (sorted : List Threshold) : List JVal :=
  sorted.map (fun t =>
    vObj [("start", vNum (.int (numOr0 (toNumber t.min)))),
          ("end", vNum (.int (numOr0 (toNumber t.max))))])

/-- `score >= (Number(t.min) || 0) && score <= (Number(t.max) || 0)`. -/
def bandContains (score : JNum) (t : Threshold) : Bool :=
  jle (.int (numOr0 (toNumber t.min))) score &&
  jle score (.int (numOr0 (toNumber t.max)))

/-- `sortedThresholds.find(t => score >= min && score <= max)`. -/
def findMatchingThreshold (score : JNum) (sorted : List Threshold) :
    Option Threshold :=
  sorted.find? (bandContains score)

/-- `if (matchingThreshold && matchingThreshold.description2)
assessment = matchingThreshold.description2`, starting from `""`. -/
def assessmentFrom (score : JNum) (sorted : List Threshold) : JVal :=
  match findMatchingThreshold score sorted with
  | some t => if truthy t.description2 then t.description2 else vStr ""
  | none => vStr ""

/-- The four scoring outputs of the threshold block of each adapter's
`processData`. -/
structure ThresholdOutcome where
  min : JNum
  max : JNum
  ranges : List JVal
  assessment : JVal

/-- The initial/default scoring outputs (`min = 0`, `max = 13`, empty
ranges, empty assessment). -/
def defaultOutcome : ThresholdOutcome := ⟨.int 0, .int 13, [], vStr ""⟩

/-- The `edulog_thresholds` block shared by the three adapters
(e.g. src/aMerkfaehigkeit/api-functions.js, lines 123-162): filter to the
category, and only when at least six entries match, sort by level and
derive min/max/ranges/assessment. -/
def thresholdBlock (cat : String) (ths : List Threshold) (score : JNum) :
    ThresholdOutcome :=
  let ms := matchingFor cat ths
  if 6 ≤ ms.length then
    let sorted := sortByLevel ms
    ⟨minFromLevel1 sorted, maxFromLevel6 sorted, rangesOf sorted,
     assessmentFrom score sorted⟩
  else defaultOutcome

/-- The `authData && authData.parameters &&
authData.parameters.edulog_thresholds` guard around the threshold block. -/
def thresholdOutcome (cat : String) (a : Option AuthData) (score : JNum) :
    ThresholdOutcome :=
  match a with
  | some ad =>
    match ad.parameters with
    | some p =>
      match p.edulog_thresholds with
      | some ths => thresholdBlock cat ths score
      | none => defaultOutcome
    | none => defaultOutcome
  | none => defaultOutcome

/-- One entry of the `parameters.colors` normalization:
`typeof c === 'object' && c.color ? c.color : c`.  (A `null` entry would
throw in JavaScript; it is mapped to itself here and exercised nowhere.) -/
def colorEntry (c : JVal) : JVal :=
  match c with
  | vObj fs => if truthy (objGetD fs "color") then objGetD fs "color" else c
  | _ => c

/-- The `parameters.colors` block shared by the three adapters
(e.g. src/aMerkfaehigkeit/api-functions.js, lines 110-120): an array maps
each entry through `colorEntry`, a string splits on commas and trims,
anything else (or a falsy spec) leaves the initial `[]`. -/
def colorsFromSpec (v : JVal) : List JVal :=
  if truthy v = false then []
  else
    match v with
    | vArr l => l.map colorEntry
    | vStr s => (splitOnChar ',' s).map (fun x => vStr (jsTrim x))
    | _ => []

/-- The `authData && authData.parameters` guard around the colors block. -/
def colorsList (a : Option AuthData) : List JVal :=
  match a with
  | some ad =>
    match ad.parameters with
    | some p => colorsFromSpec p.colors
    | none => []
  | none => []

/-- Company-name resolution shared by the adapters
(e.g. src/aMerkfaehigkeit/api-functions.js, lines 91-98): institution name
if truthy, else private-customer name, else the empty string. -/
def companyNameOf : Option AuthData → JVal
  | none => vStr ""
  | some ad =>
    let en := match ad.einrichtung with | some e => e.name | none => vUndef
    let pn := match ad.privat_kunde with | some p => p.name | none => vUndef
    if truthy en then en else if truthy pn then pn else vStr ""

/-- Company-name and city resolution of the generic service
(src/unnamed/part_001, lines 207-218). -/
def companyStadt : Option AuthData → JVal × JVal
  | none => (vStr "", vStr "")
  | some ad =>
    let en := match ad.einrichtung with | some e => e.name | none => vUndef
    let es := match ad.einrichtung with | some e => e.stadt | none => vUndef
    let pn := match ad.privat_kunde with | some p => p.name | none => vUndef
    let ps := match ad.privat_kunde with | some p => p.stadt | none => vUndef
    if truthy en then (en, jvOr es (vStr ""))
    else if truthy pn then (pn, jvOr ps (vStr ""))
    else (vStr "", vStr "")

/-- `id` availability: `(authData.einrichtung && authData.einrichtung.id) ||
(authData.privat_kunde && authData.privat_kunde.id)`. -/
def hasIdentity (a : AuthData) : Bool :=
  (match a.einrichtung with | some e => truthy e.id | none => false) ||
  (match a.privat_kunde with | some p => truthy p.id | none => false)

/-- The score actually classified:
`testResults && testResults.<field> ? Number(testResults.<field>) : 0`. -/
def scoreNumOf (field : String) (tr : JVal) : JNum :=
  if truthy tr && truthy (jGet tr field) then toNumber (jGet tr field)
  else .int 0

/-- The raw `score` output field:
`testResults && testResults.<field> ? testResults.<field> : 0`. -/
def scoreRawOf (field : String) (tr : JVal) : JVal :=
  if truthy tr && truthy (jGet tr field) then jGet tr field
  else vNum (.int 0)

/-- The grid green color `'#d5f5d5'`. -/
def greenColor : String := "#d5f5d5"

/-- The grid red color `'#ffcccc'`. -/
def redColor : String := "#ffcccc"

/-- The aMerkfaehigkeit cell colorizer
(src/aMerkfaehigkeit/api-functions.js, lines 187-191): strict equality
against `true` and `false`, anything else uncolored. -/
def colorizeCell : JVal → JVal
  | vBool true => vStr greenColor
  | vBool false => vStr redColor
  | _ => vStr ""

/-- The figurGrundS per-flag colorizer
(src/figurGrundS/api-functions.js, lines 173-180): truthiness for green,
strict equality against `false` for red, anything else uncolored. -/
def colorizeFgsFlag (v : JVal) : JVal :=
  if truthy v then vStr greenColor
  else
    match v with
    | vBool false => vStr redColor
    | _ => vStr ""

/-- The twelve cell sources `c1`-`c12` of the aMerkfaehigkeit grid
(src/aMerkfaehigkeit/api-functions.js, lines 172-185); `c9` is literally
`null`. -/
def cellMappings (first : JVal) : List JVal :=
  [jGet first "identifikationOK", jGet first "items2ok",
   jGet first "items2_v1", jGet first "items2_v2", jGet first "vor",
   jGet first "items3ok", jGet first "items3_v1", jGet first "items3_v2",
   vNull, jGet first "items4ok", jGet first "items4_v1",
   jGet first "items4_v2"]

/-- The aMerkfaehigkeit `cellColors` computation: only when the test result
is truthy and carries a non-empty `items` array is the first item's flag set
colorized; otherwise the initial `[]` stands. -/
def cellColorsOf (tr : JVal) : List JVal :=
  if truthy tr then
    match jGet tr "items" with
    | vArr (first :: _) => (cellMappings first).map colorizeCell
    | _ => []
  else []

/-- The figurGrundS `itemColors` object: only when the test result is
truthy and carries a non-empty `items` array are the eight animal/shape
keys produced; otherwise it stays `{}` and the later spread adds nothing. -/
def fgsItemColors (tr : JVal) : JObj :=
  if truthy tr then
    match jGet tr "items" with
    | vArr (first :: _) =>
      [("kuh", colorizeFgsFlag (jGet first "richtigKuh")),
       ("ente", colorizeFgsFlag (jGet first "richtigEnte")),
       ("kreis", colorizeFgsFlag (jGet first "richtigKreis")),
       ("dreieck", colorizeFgsFlag (jGet first "richtigDreieck")),
       ("auto", colorizeFgsFlag (jGet first "richtigAuto")),
       ("haus", colorizeFgsFlag (jGet first "richtigHaus")),
       ("baum", colorizeFgsFlag (jGet first "richtigBaum")),
       ("lampe", colorizeFgsFlag (jGet first "richtigLampe"))]
    | _ => []
  else []

/-- The full name: `` `${apiData.Vorname || ''} ${apiData.Nachname || ''}`
.trim() || '' ``. -/
def fullNameOf (apiData : JVal) : JVal :=
  vStr (jsTrim (jsToString (jvOr (jGet apiData "Vorname") (vStr "")) ++ " " ++
    jsToString (jvOr (jGet apiData "Nachname") (vStr ""))))

/-! ## Adapter view-model assemblers and fallbacks -/

/-- The category string of the aMerkfaehigkeit adapter, exactly as the
source spells it (src/aMerkfaehigkeit/api-functions.js, line 126). -/
def amerkCategory : String := "Auditive MerkfÃ¤higkeit"

/-- The category string of the figurGrundS adapter
(src/figurGrundS/api-functions.js, line 126). -/
def fgsCategory : String := "Figur Grund Sehen"

/-- The category string of the mZeichnen adapter
(src/mZeichnen/api-functions.js, line 125). -/
def mzCategory : String := "Mensch Zeichnen"

/-- `AMerkfaehigkeitApi.processData`
(src/aMerkfaehigkeit/api-functions.js, lines 89-237). -/
def processDataAMerk (c : Ctx) (apiData : JVal) (authData : Option AuthData)
    (testResults : JVal) : JObj :=
  let tout := thresholdOutcome amerkCategory authData
    (scoreNumOf "spseq_score" testResults)
  [("name", fullNameOf apiData),
   ("lang", jvOr (jGet apiData "Familiensprache") (vStr "")),
   ("birthdate", jvOr (jGet apiData "GeburtsDatum") (vStr "")),
   ("age", jvOr (calculateAge c (jGet apiData "GeburtsDatum")) (vStr "")),
   ("since", jGet apiData "InDEseit"),
   ("date", vStr c.dateStr),
   ("teacher", jvOr (jGet apiData "authuser_name") (vStr "")),
   ("company", companyNameOf authData),
   ("testResults", testResults),
   ("min", vNum tout.min),
   ("max", vNum tout.max),
   ("score", scoreRawOf "spseq_score" testResults),
   ("colors", vArr (colorsList authData)),
   ("ranges", vArr tout.ranges),
   ("assessment", tout.assessment),
   ("label1", vStr "UNKNOWN"),
   ("label2", vStr "UNKNOWN"),
   ("label3", vStr "UNKNOWN"),
   ("label4", vStr "UNKNOWN"),
   ("subgray", vStr "UNKNOWN"),
   ("subgreen", vStr "UNKNOWN"),
   ("subsplit", vStr "UNKNOWN"),
   ("submin", vNum tout.min),
   ("submax", vNum tout.max),
   ("cellColors", vArr (cellColorsOf testResults))]

/-- `AMerkfaehigkeitApi.getFallbackData`
(src/aMerkfaehigkeit/api-functions.js, lines 242-270). -/
def getFallbackDataAMerk (c : Ctx) : JObj :=
  [("name", vStr ""), ("lang", vStr ""), ("birthdate", vStr ""),
   ("age", vStr ""), ("since", vStr ""), ("date", vStr c.dateStr),
   ("teacher", vStr ""), ("company", vStr ""), ("testResults", vNull),
   ("min", vNum (.int 0)), ("max", vNum (.int 13)),
   ("score", vNum (.int 0)), ("colors", vArr []), ("ranges", vArr []),
   ("assessment", vStr ""), ("label1", vStr ""), ("label2", vStr ""),
   ("label3", vStr ""), ("label4", vStr ""), ("subgray", vStr ""),
   ("subgreen", vStr ""), ("subsplit", vNum (.int 50)),
   ("submin", vNum (.int 0)), ("submax", vNum (.int 13)),
   ("cellColors", vArr [])]

/-- `FigurGrundSApi.processData`
(src/figurGrundS/api-functions.js, lines 89-224): the base record followed
by the spread of `itemColors`, which contributes its eight keys only when
the test result carries a non-empty `items` array. -/
def processDataFgs (c : Ctx) (apiData : JVal) (authData : Option AuthData)
    (testResults : JVal) : JObj :=
  let tout := thresholdOutcome fgsCategory authData
    (scoreNumOf "fgs_score" testResults)
  [("name", fullNameOf apiData),
   ("lang", jvOr (jGet apiData "Familiensprache") (vStr "")),
   ("birthdate", jvOr (jGet apiData "GeburtsDatum") (vStr "")),
   ("age", jvOr (calculateAge c (jGet apiData "GeburtsDatum")) (vStr "")),
   ("since", jGet apiData "InDEseit"),
   ("date", vStr c.dateStr),
   ("company", companyNameOf authData),
   ("testResults", testResults),
   ("min", vNum tout.min),
   ("max", vNum tout.max),
   ("score", scoreRawOf "fgs_score" testResults),
   ("colors", vArr (colorsList authData)),
   ("ranges", vArr tout.ranges),
   ("assessment", tout.assessment),
   ("label1", vStr "UNKNOWN"),
   ("label2", vStr "UNKNOWN"),
   ("label3", vStr "UNKNOWN"),
   ("label4", vStr "UNKNOWN"),
   ("subsplit", vStr "UNKNOWN"),
   ("submin", vNum tout.min),
   ("submax", vNum tout.max)] ++ fgsItemColors testResults

/-- `FigurGrundSApi.getFallbackData`
(src/figurGrundS/api-functions.js, lines 229-261). -/
def getFallbackDataFgs (c : Ctx) : JObj :=
  [("name", vStr ""), ("lang", vStr ""), ("birthdate", vStr ""),
   ("age", vStr ""), ("since", vStr ""), ("date", vStr c.dateStr),
   ("company", vStr ""), ("testResults", vNull),
   ("min", vNum (.int 0)), ("max", vNum (.int 13)),
   ("score", vNum (.int 0)), ("colors", vArr []), ("ranges", vArr []),
   ("assessment", vStr ""), ("label1", vStr ""), ("label2", vStr ""),
   ("label3", vStr ""), ("label4", vStr ""),
   ("subsplit", vNum (.int 50)), ("submin", vNum (.int 0)),
   ("submax", vNum (.int 13)), ("kuh", vStr ""), ("ente", vStr ""),
   ("kreis", vStr ""), ("dreieck", vStr ""), ("auto", vStr ""),
   ("haus", vStr ""), ("baum", vStr ""), ("lampe", vStr "")]

/-- `MZeichnenApi.processData`
(src/mZeichnen/api-functions.js, lines 89-201). -/
def processDataMZ (c : Ctx) (apiData : JVal) (authData : Option AuthData)
    (testResults : JVal) : JObj :=
  let tout := thresholdOutcome mzCategory authData
    (scoreNumOf "mz_score" testResults)
  [("name", fullNameOf apiData),
   ("lang", jvOr (jGet apiData "Familiensprache") (vStr "")),
   ("birthdate", jvOr (jGet apiData "GeburtsDatum") (vStr "")),
   ("age", jvOr (calculateAge c (jGet apiData "GeburtsDatum")) (vStr "")),
   ("since", jGet apiData "InDEseit"),
   ("date", vStr c.dateStr),
   ("company", companyNameOf authData),
   ("testResults", testResults),
   ("min", vNum tout.min),
   ("max", vNum tout.max),
   ("score", scoreRawOf "mz_score" testResults),
   ("colors", vArr (colorsList authData)),
   ("ranges", vArr tout.ranges),
   ("assessment", tout.assessment),
   ("label1", vStr "UNKNOWN"),
   ("label2", vStr "UNKNOWN"),
   ("label3", vStr "UNKNOWN"),
   ("label4", vStr "UNKNOWN"),
   ("subsplit", vStr "UNKNOWN"),
   ("submin", vNum tout.min),
   ("submax", vNum tout.max)]

/-- `MZeichnenApi.getFallbackData`
(src/mZeichnen/api-functions.js, lines 206-230). -/
def getFallbackDataMZ (c : Ctx) : JObj :=
  [("name", vStr ""), ("lang", vStr ""), ("birthdate", vStr ""),
   ("age", vStr ""), ("since", vStr ""), ("date", vStr c.dateStr),
   ("company", vStr ""), ("testResults", vNull),
   ("min", vNum (.int 0)), ("max", vNum (.int 13)),
   ("score", vNum (.int 0)), ("colors", vArr []), ("ranges", vArr []),
   ("assessment", vStr ""), ("label1", vStr ""), ("label2", vStr ""),
   ("label3", vStr ""), ("label4", vStr ""),
   ("subsplit", vNum (.int 50)), ("submin", vNum (.int 0)),
   ("submax", vNum (.int 13))]

/-! ## Generic service: `parseColors`, `parseRanges`, `processApiData`
(src/unnamed/part_001) -/

/-- `EdulogApiService.parseColors` (src/unnamed/part_001, lines 364-371):
falsy input gives `null`; a string splits on commas and trims; a non-string
truthy input has no `.split`, the `TypeError` is caught, giving `null`. -/
def parseColors (v : JVal) : JVal :=
  if truthy v = false then vNull
  else
    match v with
    | vStr s => vArr ((splitOnChar ',' s).map (fun x => vStr (jsTrim x)))
    | _ => vNull

/-- One token of `parseRanges`: `start-end` pairs coerce both halves with
`Number`, a bare token duplicates its number into both fields. -/
def parseRangeToken (r : String) : JVal :=
  if strContainsChar '-' r then
    let ps := (splitOnChar '-' r).map strToNumber
    vObj [("start", vNum (ps.getD 0 .nan)), ("end", vNum (ps.getD 1 .nan))]
  else
    vObj [("start", vNum (strToNumber r)), ("end", vNum (strToNumber r))]

/-- `EdulogApiService.parseRanges` (src/unnamed/part_001, lines 376-391). -/
def parseRanges (v : JVal) : JVal :=
  if truthy v = false then vNull
  else
    match v with
    | vStr s => vArr ((splitOnChar ',' s).map parseRangeToken)
    | _ => vNull

/-- The hard-coded color default of `processApiData`. -/
def defaultColors : JVal :=
  vArr [vStr "#ed1b06", vStr "#ff7801", vStr "#fcc709", vStr "#fff15e",
        vStr "#c1ef4a", vStr "#79e607"]

/-- The hard-coded ranges default of `processApiData`. -/
def defaultRanges : JVal :=
  vArr [vObj [("start", vNum (.int 0)), ("end", vNum (.int 3))],
        vObj [("start", vNum (.int 4)), ("end", vNum (.int 5))],
        vObj [("start", vNum (.int 6)), ("end", vNum (.int 6))],
        vObj [("start", vNum (.int 7)), ("end", vNum (.int 8))],
        vObj [("start", vNum (.int 9)), ("end", vNum (.int 10))],
        vObj [("start", vNum (.int 11)), ("end", vNum (.int 11))]]

/-- `EdulogApiService.processApiData` (src/unnamed/part_001, lines
206-260): the normalized base record followed by `...apiData`, the spread
of the raw record coming last. -/
def processApiData (c : Ctx) (apiData : JObj) (authData : Option AuthData) :
    JObj :=
  let cs := companyStadt authData
  [("name", fullNameOf (vObj apiData)),
   ("birthdate", jvOr (objGetD apiData "GeburtsDatum") (vStr "")),
   ("age", jvOr (calculateAge c (objGetD apiData "GeburtsDatum")) (vStr "")),
   ("language", jvOr (objGetD apiData "Familiensprache") (vStr "")),
   ("since", jvOr (objGetD apiData "InDEseit") (vStr "")),
   ("date", vStr c.dateStr),
   ("teacher", jvOr (objGetD apiData "authuser_name") (vStr "")),
   ("company", cs.1),
   ("stadt", cs.2),
   ("assessment", jvOr (objGetD apiData "Beurteilung") (vStr "")),
   ("min", vNum (.int (jnumOrD (toNumber (objGetD apiData "min")) 0))),
   ("max", vNum (.int (jnumOrD (toNumber (objGetD apiData "max")) 13))),
   ("score", vNum (.int (jnumOrD (toNumber (objGetD apiData "score")) 0))),
   ("colors", jvOr (parseColors (objGetD apiData "colors")) defaultColors),
   ("ranges", jvOr (parseRanges (objGetD apiData "ranges")) defaultRanges),
   ("label1", jvOr (objGetD apiData "label1") (vStr "stark auffällig")),
   ("label2", jvOr (objGetD apiData "label2") (vStr "auffällig")),
   ("label3", jvOr (objGetD apiData "label3") (vStr "unauffällig")),
   ("label4", jvOr (objGetD apiData "label4")
      (vStr "besonders unauffällig")),
   ("subsplit",
      vNum (.int (jnumOrD (toNumber (objGetD apiData "subsplit")) 50))),
   ("submin", vNum (.int (jnumOrD (toNumber (objGetD apiData "submin")) 0))),
   ("submax",
      vNum (.int (jnumOrD (toNumber (objGetD apiData "submax")) 13))),
   ("subgray", jvOr (objGetD apiData "subgray")
      (vStr "Weiterführende Fachdiagnostik empfohlen")),
   ("subgreen", jvOr (objGetD apiData "subgreen") (vStr "Normbereich"))]
  ++ apiData

/-! ## `fetchData` pipelines -/

/-- The network requests a `fetchData` run can issue. -/
inductive NetCall where
  | auth
  | basicData
  | testData
deriving DecidableEq, Repr

/-- The environment a `fetchData` call runs in: the page URL parameters
(`URLSearchParams.get` returns `null`, i.e. `none`, for an absent
parameter), the adapter's cache entry, the service's stored `authData`, and
the outcomes the network would produce for each of the three requests
(`Except.error` standing for a thrown error or a non-ok HTTP response). -/
structure FetchEnv where
  token : Option String
  p_id : Option String
  cached : Option JObj
  storedAuth : Option AuthData
  authResp : Except Unit AuthData
  basicResp : Except Unit JVal
  testResp : Except Unit JVal

/-- Truthiness of a URL parameter (`null` and `''` are falsy). -/
def truthyParam : Option String → Bool
  | none => false
  | some s => s != ""

/-- `EdulogApiService.hasApiParams` (src/unnamed/part_001, lines 39-42):
`!!(params.token && params.p_id)`. -/
def hasApiParams (token p_id : Option String) : Bool :=
  truthyParam token && truthyParam p_id

/-- `EdulogApiService.authenticate` as observed by an adapter: stored auth
data is returned without a network request; otherwise the network auth
request is issued and its outcome returned. -/
def authStep (env : FetchEnv) : Except Unit AuthData × List NetCall :=
  match env.storedAuth with
  | some a => (Except.ok a, [])
  | none => (env.authResp, [NetCall.auth])

/-- The shared `fetchData` pipeline of the three adapters
(src/aMerkfaehigkeit/api-functions.js, lines 14-84, and the line-identical
pipelines of the other two folders), parameterized by the adapter's
test-result key, assembler and fallback.  Missing URL parameters return
the fallback before any network activity; a cache hit returns the cached
record; a failed authentication, missing identity or failed basic-data
request is caught and becomes the fallback; a failed test-result request
only logs and proceeds with a `null` test result. -/
def fetchPipeline (resultKey : String)
    (process : Ctx → JVal → Option AuthData → JVal → JObj)
    (fallback : Ctx → JObj) (env : FetchEnv) (c : Ctx) :
    JObj × List NetCall :=
  if hasApiParams env.token env.p_id then
    match env.cached with
    | some v => (v, [])
    | none =>
      match authStep env with
      | (Except.error _, calls) => (fallback c, calls)
      | (Except.ok authData, calls) =>
        if hasIdentity authData then
          match env.basicResp with
          | Except.error _ =>
            (fallback c, calls ++ [NetCall.basicData])
          | Except.ok data =>
            let testResults : JVal :=
              match env.testResp with
              | Except.ok td => jvOr (jGet td resultKey) vNull
              | Except.error _ => vNull
            (process c (jvOr (jIndex0 data) data) (some authData) testResults,
             calls ++ [NetCall.basicData, NetCall.testData])
        else (fallback c, calls)
  else (fallback c, [])

/-- `AMerkfaehigkeitApi.fetchData`
(src/aMerkfaehigkeit/api-functions.js, lines 14-84). -/
def fetchDataAMerk (env : FetchEnv) (c : Ctx) : JObj × List NetCall :=
  fetchPipeline "spseq_TotalResult" processDataAMerk getFallbackDataAMerk
    env c

/-- `FigurGrundSApi.fetchData`
(src/figurGrundS/api-functions.js, lines 14-84). -/
def fetchDataFgs (env : FetchEnv) (c : Ctx) : JObj × List NetCall :=
  fetchPipeline "fgs_TotalResult" processDataFgs getFallbackDataFgs env c

/-- `MZeichnenApi.fetchData`
(src/mZeichnen/api-functions.js, lines 14-84). -/
def fetchDataMZ (env : FetchEnv) (c : Ctx) : JObj × List NetCall :=
  fetchPipeline "mz_TotalResult" processDataMZ getFallbackDataMZ env c

/-! ## Helper lemmas -/
def optOr (a b : Option JVal) : Option JVal :=
  match a with
  | some v => some v
  | none => b


/-! ## Concrete fixtures for witnesses and counterexamples -/

/-- A fixed ambient clock (2024-06-01) with a trivial generic date parser,
used to instantiate the embedded functions on concrete inputs. -/
def ctx0 : Ctx := ⟨"01.06.2024", 2024, 5, 1, fun _ => invalidDate⟩

/-- A complete six-level threshold table for the aMerkfaehigkeit category
with contiguous bands [0,3], [4,5], [6,7], [8,9], [10,11], [12,13]. -/
def thsSix : List Threshold :=
  [⟨amerkCategory, 1, vNum (.int 0), vNum (.int 3), vStr "niedrig"⟩,
   ⟨amerkCategory, 2, vNum (.int 4), vNum (.int 5), vStr "maessig"⟩,
   ⟨amerkCategory, 3, vNum (.int 6), vNum (.int 7), vStr "mittel"⟩,
   ⟨amerkCategory, 4, vNum (.int 8), vNum (.int 9), vStr "gut"⟩,
   ⟨amerkCategory, 5, vNum (.int 10), vNum (.int 11), vStr "hoch"⟩,
   ⟨amerkCategory, 6, vNum (.int 12), vNum (.int 13), vStr "top"⟩]

/-- Seven thresholds, levels 1-7, all matching the aMerkfaehigkeit
category. -/
def thsSeven : List Threshold :=
  [⟨amerkCategory, 1, vNum (.int 0), vNum (.int 1), vStr "s1"⟩,
   ⟨amerkCategory, 2, vNum (.int 2), vNum (.int 3), vStr "s2"⟩,
   ⟨amerkCategory, 3, vNum (.int 4), vNum (.int 5), vStr "s3"⟩,
   ⟨amerkCategory, 4, vNum (.int 6), vNum (.int 7), vStr "s4"⟩,
   ⟨amerkCategory, 5, vNum (.int 8), vNum (.int 9), vStr "s5"⟩,
   ⟨amerkCategory, 6, vNum (.int 10), vNum (.int 11), vStr "s6"⟩,
   ⟨amerkCategory, 7, vNum (.int 12), vNum (.int 13), vStr "s7"⟩]

/-- Six level-sorted thresholds whose level-1 band [0,10] and level-2 band
[4,6] overlap at score 5. -/
def thsOverlap : List Threshold :=
  [⟨amerkCategory, 1, vNum (.int 0), vNum (.int 10), vStr "A"⟩,
   ⟨amerkCategory, 2, vNum (.int 4), vNum (.int 6), vStr "B"⟩,
   ⟨amerkCategory, 3, vNum (.int 11), vNum (.int 11), vStr "C"⟩,
   ⟨amerkCategory, 4, vNum (.int 12), vNum (.int 12), vStr "D"⟩,
   ⟨amerkCategory, 5, vNum (.int 13), vNum (.int 13), vStr "E"⟩,
   ⟨amerkCategory, 6, vNum (.int 13), vNum (.int 13), vStr "F"⟩]

/-- Authentication data with no identity entries but a full threshold
table. -/
def auth5 : AuthData := ⟨none, none, some ⟨vArr [], some thsSix⟩⟩

/-- A test result whose score field holds the non-numeric string "abc". -/
def tr5 : JVal := vObj [("spseq_score", vStr "abc")]

/-- A first grid item whose only flag is a passed `richtigKuh`. -/
def itemW : JVal := vObj [("richtigKuh", vBool true)]

/-- A test result carrying a one-item `items` array. -/
def trItems : JVal := vObj [("items", vArr [itemW])]

/-- Authentication data with a truthy institution id and a full threshold
table. -/
def auth8 : AuthData :=
  ⟨some ⟨vNum (.int 1), vStr "Inst", vStr ""⟩, none,
   some ⟨vArr [], some thsSix⟩⟩

/-- A fetch environment whose page URL lacks the `token` parameter. -/
def env7 : FetchEnv :=
  ⟨none, some "p", none, none, Except.error (), Except.error (),
   Except.error ()⟩

/-- A fetch environment where authentication and the basic-data request
succeed but the test-result request fails. -/
def env8 : FetchEnv :=
  ⟨some "t", some "p", none, none, Except.ok auth8, Except.ok (vObj []),
   Except.error ()⟩

/-- A fetch environment where authentication succeeds but the basic-data
request fails. -/
def env8b : FetchEnv :=
  ⟨some "t", some "p", none, none, Except.ok auth8, Except.error (),
   Except.error ()⟩

theorem objGet_foldl (o : JObj) (k : String) (acc : Option JVal) :
    o.foldl (fun acc p => if p.1 == k then some p.2 else acc) acc
      = optOr (objGet o k) acc := by
  induction o generalizing acc with
  | nil => simp [objGet, optOr]
  | cons p o ih =>
    show List.foldl _ (if p.1 == k then some p.2 else acc) o = _
    rw [ih]
    have hcons : objGet (p :: o) k
        = optOr (objGet o k) (if p.1 == k then some p.2 else none) := by
      show List.foldl _ (if p.1 == k then some p.2 else none) o = _
      rw [ih]
    rw [hcons]
    cases h : objGet o k with
    | some v => simp [optOr]
    | none =>
      by_cases hk : (p.1 == k) = true
      · simp [optOr, hk]
      · simp only [Bool.not_eq_true] at hk
        simp [optOr, hk]

theorem objGet_append (a b : JObj) (k : String) :
    objGet (a ++ b) k = optOr (objGet b k) (objGet a k) := by
  show List.foldl _ none (a ++ b) = _
  rw [List.foldl_append, objGet_foldl]
  rfl

theorem objGet_append_right (a b : JObj) (k : String) (v : JVal)
    (h : objGet b k = some v) : objGet (a ++ b) k = some v := by
  rw [objGet_append, h]; rfl

theorem mem_keys_of_objGet (o : JObj) (k : String) (v : JVal)
    (h : objGet o k = some v) : k ∈ objKeys o := by
  induction o with
  | nil => simp [objGet] at h
  | cons p o ih =>
    have hcons : objGet (p :: o) k
        = optOr (objGet o k) (if p.1 == k then some p.2 else none) := by
      show List.foldl _ (if p.1 == k then some p.2 else none) o = _
      rw [objGet_foldl]
    rw [hcons] at h
    cases ho : objGet o k with
    | some w =>
      have hwv : w = v := by rw [ho] at h; simpa [optOr] using h
      exact List.mem_cons_of_mem _ (ih (by rw [ho, hwv]))
    | none =>
      rw [ho] at h
      by_cases hk : (p.1 == k) = true
      · have : k = p.1 := (eq_of_beq hk).symm
        subst this
        exact List.mem_cons_self _ _
      · simp only [Bool.not_eq_true] at hk
        simp [optOr, hk] at h

theorem find?_eq_get_of_first {α : Type} (p : α → Bool) (l : List α)
    (i : Nat) (hi : i < l.length) (hp : p (l.get ⟨i, hi⟩) = true)
    (hfirst : ∀ j (hj : j < i), p (l.get ⟨j, Nat.lt_trans hj hi⟩) = false) :
    l.find? p = some (l.get ⟨i, hi⟩) := by
  induction l generalizing i with
  | nil => exact absurd hi (Nat.not_lt_zero i)
  | cons a l ih =>
    cases i with
    | zero => exact List.find?_cons_of_pos _ hp
    | succ n =>
      have h0 : p a = false := hfirst 0 (Nat.succ_pos n)
      rw [List.find?_cons_of_neg _ (by simp [h0])]
      exact ih n (Nat.lt_of_succ_lt_succ hi) hp
        (fun j hj => hfirst (j + 1) (Nat.succ_lt_succ hj))

theorem fgsItemColors_of_items (tr item : JVal) (rest : List JVal)
    (h : jGet tr "items" = vArr (item :: rest)) :
    fgsItemColors tr =
      [("kuh", colorizeFgsFlag (jGet item "richtigKuh")),
       ("ente", colorizeFgsFlag (jGet item "richtigEnte")),
       ("kreis", colorizeFgsFlag (jGet item "richtigKreis")),
       ("dreieck", colorizeFgsFlag (jGet item "richtigDreieck")),
       ("auto", colorizeFgsFlag (jGet item "richtigAuto")),
       ("haus", colorizeFgsFlag (jGet item "richtigHaus")),
       ("baum", colorizeFgsFlag (jGet item "richtigBaum")),
       ("lampe", colorizeFgsFlag (jGet item "richtigLampe"))] := by
  cases tr with
  | vObj fs => simp [fgsItemColors, truthy, jGet] at h ⊢; rw [h]
  | vUndef => exact JVal.noConfusion h
  | vNull => exact JVal.noConfusion h
  | vBool b => exact JVal.noConfusion h
  | vNum n => exact JVal.noConfusion h
  | vStr s => exact JVal.noConfusion h
  | vArr l => exact JVal.noConfusion h

theorem cellColorsOf_of_items (tr item : JVal) (rest : List JVal)
    (h : jGet tr "items" = vArr (item :: rest)) :
    cellColorsOf tr = (cellMappings item).map colorizeCell := by
  cases tr with
  | vObj fs => simp [cellColorsOf, truthy, jGet] at h ⊢; rw [h]
  | vUndef => exact JVal.noConfusion h
  | vNull => exact JVal.noConfusion h
  | vBool b => exact JVal.noConfusion h
  | vNum n => exact JVal.noConfusion h
  | vStr s => exact JVal.noConfusion h
  | vArr l => exact JVal.noConfusion h

theorem length_insertTh (x : Threshold) (l : List Threshold) :
    (insertTh x l).length = l.length + 1 := by
  induction l with
  | nil => rfl
  | cons y ys ih =>
    by_cases hy : y.level ≤ x.level
    · simp [insertTh, hy, ih]
    · simp [insertTh, hy]

theorem length_sortByLevel (l : List Threshold) :
    (sortByLevel l).length = l.length := by
  induction l with
  | nil => rfl
  | cons x xs ih => simp [sortByLevel, length_insertTh, ih]

/-! ## Record-field extraction lemmas -/

theorem amerk_get_min (c : Ctx) (d : JVal) (a : Option AuthData)
    (tr : JVal) :
    objGet (processDataAMerk c d a tr) "min"
      = some (vNum (thresholdOutcome amerkCategory a
          (scoreNumOf "spseq_score" tr)).min) := rfl

theorem amerk_get_max (c : Ctx) (d : JVal) (a : Option AuthData)
    (tr : JVal) :
    objGet (processDataAMerk c d a tr) "max"
      = some (vNum (thresholdOutcome amerkCategory a
          (scoreNumOf "spseq_score" tr)).max) := rfl

theorem amerk_get_ranges (c : Ctx) (d : JVal) (a : Option AuthData)
    (tr : JVal) :
    objGet (processDataAMerk c d a tr) "ranges"
      = some (vArr (thresholdOutcome amerkCategory a
          (scoreNumOf "spseq_score" tr)).ranges) := rfl

theorem amerk_get_assessment (c : Ctx) (d : JVal) (a : Option AuthData)
    (tr : JVal) :
    objGet (processDataAMerk c d a tr) "assessment"
      = some (thresholdOutcome amerkCategory a
          (scoreNumOf "spseq_score" tr)).assessment := rfl

theorem amerk_get_colors (c : Ctx) (d : JVal) (a : Option AuthData)
    (tr : JVal) :
    objGet (processDataAMerk c d a tr) "colors"
      = some (vArr (colorsList a)) := rfl

theorem amerk_get_cellColors (c : Ctx) (d : JVal) (a : Option AuthData)
    (tr : JVal) :
    objGet (processDataAMerk c d a tr) "cellColors"
      = some (vArr (cellColorsOf tr)) := rfl

/-! ## Claim theorems -/

/-- Claim C1 (amended): `processData` and `getFallbackData` produce records
with identical key sets for the aMerkfaehigkeit and mZeichnen adapters on
every input; for the figurGrundS adapter the parity holds exactly when the
test result carries a non-empty `items` array — with absent or empty items
the assembled record lacks the eight item-color keys that the fallback
always carries. -/
theorem assemble_fallback_key_parity :
    (∀ (c : Ctx) (apiData : JVal) (a : Option AuthData) (tr : JVal),
       objKeys (processDataAMerk c apiData a tr)
         = objKeys (getFallbackDataAMerk c))
    ∧ (∀ (c : Ctx) (apiData : JVal) (a : Option AuthData) (tr : JVal),
       objKeys (processDataMZ c apiData a tr)
         = objKeys (getFallbackDataMZ c))
    ∧ (∀ (c : Ctx) (apiData : JVal) (a : Option AuthData) (tr item : JVal)
         (rest : List JVal), jGet tr "items" = vArr (item :: rest) →
       objKeys (processDataFgs c apiData a tr)
         = objKeys (getFallbackDataFgs c)) := by
  refine ⟨fun c d a tr => rfl, fun c d a tr => rfl,
    fun c d a tr item rest h => ?_⟩
  simp only [processDataFgs]
  rw [fgsItemColors_of_items tr item rest h]
  rfl

/-- Claim C1 witness: the figurGrundS parity at a concrete test result
with one item. -/
theorem assemble_fallback_key_parity_witness :
    objKeys (processDataFgs ctx0 (vObj []) none trItems)
      = objKeys (getFallbackDataFgs ctx0) :=
  assemble_fallback_key_parity.2.2 ctx0 (vObj []) none trItems itemW [] rfl

/-- Claim C1 counterexample: with a `null` test result the figurGrundS
assembled record is missing the `kuh` key that its fallback carries, so the
two key sets differ. -/
theorem fgs_missing_items_key_parity_cex :
    ("kuh" ∈ objKeys (getFallbackDataFgs ctx0))
    ∧ ("kuh" ∉ objKeys (processDataFgs ctx0 (vObj []) none vNull)) := by
  constructor
  · decide
  · decide

/-- Claim C2 (amended): with authentication parameters present and fewer
than six thresholds matching the aMerkfaehigkeit category, the assembled
record has `min = 0`, `max = 13`, empty `ranges` and empty `assessment`;
the `colors` field, however, is derived from `parameters.colors`
independently of the thresholds and is empty only when that color spec
yields nothing. -/
theorem insufficient_thresholds_defaults (c : Ctx) (apiData tr : JVal)
    (e pk : Option AuthInst) (cs : JVal) (ths : List Threshold)
    (h : (matchingFor amerkCategory ths).length < 6) :
    objGet (processDataAMerk c apiData
        (some ⟨e, pk, some ⟨cs, some ths⟩⟩) tr) "min" = some (vNum (.int 0))
    ∧ objGet (processDataAMerk c apiData
        (some ⟨e, pk, some ⟨cs, some ths⟩⟩) tr) "max"
        = some (vNum (.int 13))
    ∧ objGet (processDataAMerk c apiData
        (some ⟨e, pk, some ⟨cs, some ths⟩⟩) tr) "ranges" = some (vArr [])
    ∧ objGet (processDataAMerk c apiData
        (some ⟨e, pk, some ⟨cs, some ths⟩⟩) tr) "assessment"
        = some (vStr "")
    ∧ objGet (processDataAMerk c apiData
        (some ⟨e, pk, some ⟨cs, some ths⟩⟩) tr) "colors"
        = some (vArr (colorsFromSpec cs)) := by
  have hout : thresholdOutcome amerkCategory
      (some ⟨e, pk, some ⟨cs, some ths⟩⟩)
      (scoreNumOf "spseq_score" tr) = defaultOutcome := by
    simp only [thresholdOutcome, thresholdBlock]
    rw [if_neg (by omega)]
  refine ⟨?_, ?_, ?_, ?_, ?_⟩
  · rw [amerk_get_min, hout]
    rfl
  · rw [amerk_get_max, hout]
    rfl
  · rw [amerk_get_ranges, hout]
    rfl
  · rw [amerk_get_assessment, hout]
    rfl
  · rw [amerk_get_colors]
    rfl

/-- Claim C2 witness: the defaults at an empty threshold table with a
one-entry color spec. -/
theorem insufficient_thresholds_defaults_witness :
    objGet (processDataAMerk ctx0 (vObj [])
        (some ⟨none, none, some ⟨vArr [vStr "red"], some []⟩⟩) vNull) "min"
      = some (vNum (.int 0))
    ∧ objGet (processDataAMerk ctx0 (vObj [])
        (some ⟨none, none, some ⟨vArr [vStr "red"], some []⟩⟩) vNull) "max"
      = some (vNum (.int 13))
    ∧ objGet (processDataAMerk ctx0 (vObj [])
        (some ⟨none, none, some ⟨vArr [vStr "red"], some []⟩⟩) vNull)
        "ranges" = some (vArr [])
    ∧ objGet (processDataAMerk ctx0 (vObj [])
        (some ⟨none, none, some ⟨vArr [vStr "red"], some []⟩⟩) vNull)
        "assessment" = some (vStr "")
    ∧ objGet (processDataAMerk ctx0 (vObj [])
        (some ⟨none, none, some ⟨vArr [vStr "red"], some []⟩⟩) vNull)
        "colors" = some (vArr (colorsFromSpec (vArr [vStr "red"]))) :=
  insufficient_thresholds_defaults ctx0 (vObj []) vNull none none
    (vArr [vStr "red"]) [] (by decide)

/-- Claim C2 counterexample: with zero matching thresholds but a non-empty
color spec, the assembled `colors` field is not empty, refuting the
"empty colors" part of the claim. -/
theorem insufficient_thresholds_colors_cex :
    (matchingFor amerkCategory []).length < 6
    ∧ objGet (processDataAMerk ctx0 (vObj [])
        (some ⟨none, none, some ⟨vArr [vStr "red"], some []⟩⟩) vNull)
        "colors" = some (vArr [vStr "red"])
    ∧ vArr [vStr "red"] ≠ vArr [] := by
  refine ⟨by decide, rfl, ?_⟩
  intro h
  injection h with h'
  exact List.noConfusion h'

/-- Claim C3: on a six-entry, level-sorted threshold list the classifier
returns the first entry (in ascending level order) whose inclusive band
contains the score; consequently its level is minimal among all entries
whose band contains the score, and when its secondary description is
non-empty it becomes the assessment. -/
theorem classifier_first_match (score : JNum) (ts : List Threshold)
    (_hlen : ts.length = 6)
    (hsorted : List.Pairwise (fun a b : Threshold => a.level ≤ b.level) ts)
    (i : Nat) (hi : i < ts.length)
    (hband : bandContains score (ts.get ⟨i, hi⟩) = true)
    (hfirst : ∀ j (hj : j < i),
      bandContains score (ts.get ⟨j, Nat.lt_trans hj hi⟩) = false) :
    findMatchingThreshold score ts = some (ts.get ⟨i, hi⟩)
    ∧ (∀ t ∈ ts, bandContains score t = true →
        (ts.get ⟨i, hi⟩).level ≤ t.level)
    ∧ (truthy (ts.get ⟨i, hi⟩).description2 = true →
        assessmentFrom score ts = (ts.get ⟨i, hi⟩).description2) := by
  have hfind : findMatchingThreshold score ts = some (ts.get ⟨i, hi⟩) :=
    find?_eq_get_of_first _ ts i hi hband hfirst
  refine ⟨hfind, ?_, ?_⟩
  · intro t ht hb
    obtain ⟨⟨j, hj⟩, rfl⟩ := List.mem_iff_get.mp ht
    rcases Nat.lt_trichotomy j i with hlt | heq | hgt
    · have h1 := hfirst j hlt
      rw [hb] at h1
      exact Bool.noConfusion h1
    · subst heq
      exact le_refl _
    · exact List.pairwise_iff_get.mp hsorted ⟨i, hi⟩ ⟨j, hj⟩ hgt
  · intro htr
    simp only [assessmentFrom, hfind]
    rw [if_pos htr]

/-- Claim C3 witness: with the level-1 band [0,10] and the level-2 band
[4,6] both containing score 5, the classifier picks the level-1 entry and
its description becomes the assessment. -/
theorem classifier_first_match_witness :
    findMatchingThreshold (.int 5) thsOverlap
      = some ⟨amerkCategory, 1, vNum (.int 0), vNum (.int 10), vStr "A"⟩
    ∧ assessmentFrom (.int 5) thsOverlap = vStr "A" := by
  have h := classifier_first_match (.int 5) thsOverlap rfl (by decide) 0
    (by decide) rfl (fun j hj => absurd hj (Nat.not_lt_zero j))
  exact ⟨h.1, h.2.2 rfl⟩

/-- Claim C4 (amended): the threshold block only checks that *at least* six
entries match the category — it validates neither an exact count of six nor
distinct levels 1-6 — and whenever it derives a non-default result the
`ranges` sequence has exactly as many entries as there are matches, which
can exceed six. -/
theorem resolver_accepts_at_least_six (c : Ctx) (apiData tr : JVal)
    (e pk : Option AuthInst) (cs : JVal) (ths : List Threshold)
    (h6 : 6 ≤ (matchingFor amerkCategory ths).length) :
    objGet (processDataAMerk c apiData
        (some ⟨e, pk, some ⟨cs, some ths⟩⟩) tr) "ranges"
      = some (vArr (rangesOf (sortByLevel (matchingFor amerkCategory ths))))
    ∧ (rangesOf (sortByLevel (matchingFor amerkCategory ths))).length
        = (matchingFor amerkCategory ths).length := by
  constructor
  · rw [amerk_get_ranges]
    have hout : thresholdOutcome amerkCategory
        (some ⟨e, pk, some ⟨cs, some ths⟩⟩)
        (scoreNumOf "spseq_score" tr)
        = thresholdBlock amerkCategory ths (scoreNumOf "spseq_score" tr) :=
      rfl
    rw [hout]
    simp only [thresholdBlock]
    rw [if_pos h6]
  · simp [rangesOf, length_sortByLevel]

/-- Claim C4 witness: the amended statement at the seven-entry table. -/
theorem resolver_accepts_at_least_six_witness :
    objGet (processDataAMerk ctx0 (vObj [])
        (some ⟨none, none, some ⟨vArr [], some thsSeven⟩⟩) vNull) "ranges"
      = some (vArr (rangesOf (sortByLevel
          (matchingFor amerkCategory thsSeven))))
    ∧ (rangesOf (sortByLevel (matchingFor amerkCategory thsSeven))).length
        = (matchingFor amerkCategory thsSeven).length :=
  resolver_accepts_at_least_six ctx0 (vObj []) vNull none none (vArr [])
    thsSeven (by decide)

/-- Claim C4 counterexample: seven thresholds of the category yield a
non-default result whose matching subset has seven members and whose
derived `ranges` has seven entries, not six. -/
theorem resolver_seven_matches_cex :
    (matchingFor amerkCategory thsSeven).length = 7
    ∧ objGet (processDataAMerk ctx0 (vObj [])
        (some ⟨none, none, some ⟨vArr [], some thsSeven⟩⟩) vNull) "ranges"
        = some (vArr (rangesOf (sortByLevel thsSeven)))
    ∧ (rangesOf (sortByLevel thsSeven)).length = 7
    ∧ ¬ (rangesOf (sortByLevel thsSeven)).length = 6 := by
  refine ⟨by decide, rfl, by decide, by decide⟩

/-- Claim C5 (amended): a falsy score field (absent, `null`, `0`, `''`,
`false`) is classified as 0; a *truthy* score field is coerced with
`Number`, so a truthy non-numeric value becomes `NaN`, which satisfies no
band comparison — the classifier then matches nothing and the assessment
stays empty, rather than classifying as if the score were 0. -/
theorem score_coercion_policy (tr : JVal) :
    (truthy (jGet tr "spseq_score") = false →
       scoreNumOf "spseq_score" tr = .int 0)
    ∧ (truthy tr = true → truthy (jGet tr "spseq_score") = true →
       scoreNumOf "spseq_score" tr = toNumber (jGet tr "spseq_score"))
    ∧ (∀ sorted : List Threshold,
        findMatchingThreshold .nan sorted = none) := by
  refine ⟨?_, ?_, ?_⟩
  · intro h
    simp [scoreNumOf, h]
  · intro h1 h2
    simp [scoreNumOf, h1, h2]
  · intro sorted
    apply List.find?_eq_none.mpr
    intro t ht
    simp [bandContains, jle]

/-- Claim C5 witness: the string score "abc" is truthy, coerces to `NaN`
and matches no band of the sorted six-entry table. -/
theorem score_coercion_policy_witness :
    scoreNumOf "spseq_score" tr5 = toNumber (jGet tr5 "spseq_score")
    ∧ toNumber (jGet tr5 "spseq_score") = .nan
    ∧ findMatchingThreshold .nan (sortByLevel thsSix) = none := by
  refine ⟨(score_coercion_policy tr5).2.1 rfl rfl, by decide,
    (score_coercion_policy tr5).2.2 _⟩

/-- Claim C5 counterexample: with the non-numeric score "abc" the
assembled assessment is empty, while classifying score 0 against the same
table would produce the level-1 description "niedrig" — so the classifier
does not behave as if the score were 0. -/
theorem score_nan_skips_bands_cex :
    objGet (processDataAMerk ctx0 (vObj []) (some auth5) tr5) "assessment"
      = some (vStr "")
    ∧ assessmentFrom (.int 0)
        (sortByLevel (matchingFor amerkCategory thsSix)) = vStr "niedrig"
    ∧ vStr "" ≠ vStr "niedrig" := by
  refine ⟨rfl, rfl, ?_⟩
  intro h
  injection h with h'
  exact absurd h' (by decide)

/-- Claim C6: both colorizers map `true` to the pass color, `false` to the
fail color and `null`/`undefined`/absent to the empty string; and each
output cell/key is the image of exactly its own flag of the first item
(the aMerkfaehigkeit `cellColors` is the pointwise map of the twelve cell
sources, and each figurGrundS key reads only its own `richtig*` flag). -/
theorem colorizer_flag_mapping :
    (colorizeCell (vBool true) = vStr greenColor
      ∧ colorizeFgsFlag (vBool true) = vStr greenColor)
    ∧ (colorizeCell (vBool false) = vStr redColor
      ∧ colorizeFgsFlag (vBool false) = vStr redColor)
    ∧ (colorizeCell vNull = vStr "" ∧ colorizeFgsFlag vNull = vStr "")
    ∧ (colorizeCell vUndef = vStr "" ∧ colorizeFgsFlag vUndef = vStr "")
    ∧ (∀ (c : Ctx) (apiData : JVal) (a : Option AuthData) (tr item : JVal)
         (rest : List JVal), jGet tr "items" = vArr (item :: rest) →
       objGet (processDataAMerk c apiData a tr) "cellColors"
         = some (vArr ((cellMappings item).map colorizeCell))
       ∧ objGet (processDataFgs c apiData a tr) "kuh"
         = some (colorizeFgsFlag (jGet item "richtigKuh"))
       ∧ objGet (processDataFgs c apiData a tr) "lampe"
         = some (colorizeFgsFlag (jGet item "richtigLampe"))) := by
  refine ⟨⟨rfl, rfl⟩, ⟨rfl, rfl⟩, ⟨rfl, rfl⟩, ⟨rfl, rfl⟩, ?_⟩
  intro c d a tr item rest h
  refine ⟨?_, ?_, ?_⟩
  · rw [amerk_get_cellColors, cellColorsOf_of_items tr item rest h]
  · simp only [processDataFgs]
    rw [fgsItemColors_of_items tr item rest h]
    rfl
  · simp only [processDataFgs]
    rw [fgsItemColors_of_items tr item rest h]
    rfl

/-- Claim C6 witness: the per-item mapping at a concrete one-item test
result. -/
theorem colorizer_flag_mapping_witness :
    objGet (processDataAMerk ctx0 (vObj []) none trItems) "cellColors"
      = some (vArr ((cellMappings itemW).map colorizeCell))
    ∧ objGet (processDataFgs ctx0 (vObj []) none trItems) "kuh"
      = some (colorizeFgsFlag (jGet itemW "richtigKuh")) := by
  have h := colorizer_flag_mapping.2.2.2.2 ctx0 (vObj []) none trItems
    itemW [] rfl
  exact ⟨h.1, h.2.1⟩

/-- Claim C7: with the `token` or `p_id` URL parameter absent, each
adapter's `fetchData` returns its fallback record and issues no network
request at all. -/
theorem missing_params_no_network (env : FetchEnv) (c : Ctx)
    (h : env.token = none ∨ env.p_id = none) :
    fetchDataAMerk env c = (getFallbackDataAMerk c, [])
    ∧ fetchDataFgs env c = (getFallbackDataFgs c, [])
    ∧ fetchDataMZ env c = (getFallbackDataMZ c, []) := by
  have hp : hasApiParams env.token env.p_id = false := by
    rcases h with h | h <;> simp [hasApiParams, truthyParam, h]
  refine ⟨?_, ?_, ?_⟩ <;>
    simp [fetchDataAMerk, fetchDataFgs, fetchDataMZ, fetchPipeline, hp]

/-- Claim C7 witness: a concrete page state without a `token` parameter. -/
theorem missing_params_no_network_witness :
    fetchDataAMerk env7 ctx0 = (getFallbackDataAMerk ctx0, []) :=
  (missing_params_no_network env7 ctx0 (Or.inl rfl)).1

/-- Claim C8 (amended): a failed basic-data request routes `fetchData` to
the full fallback record, while a failed test-result request proceeds: the
assembler runs on a `null` test result, the output `score` defaults to 0,
and the `assessment` is the threshold classification of score 0 — which is
empty only when no band contains 0 or the matching band's description is
empty. -/
theorem basic_vs_test_failure (env : FetchEnv) (c : Ctx) (a : AuthData)
    (d : JVal)
    (hp : hasApiParams env.token env.p_id = true)
    (hc : env.cached = none) (hs : env.storedAuth = none)
    (ha : env.authResp = Except.ok a) (hid : hasIdentity a = true) :
    (env.basicResp = Except.error () →
       fetchDataAMerk env c
         = (getFallbackDataAMerk c, [NetCall.auth, NetCall.basicData]))
    ∧ (env.basicResp = Except.ok d → env.testResp = Except.error () →
       fetchDataAMerk env c
         = (processDataAMerk c (jvOr (jIndex0 d) d) (some a) vNull,
            [NetCall.auth, NetCall.basicData, NetCall.testData])
       ∧ objGet (processDataAMerk c (jvOr (jIndex0 d) d) (some a) vNull)
           "score" = some (vNum (.int 0))
       ∧ objGet (processDataAMerk c (jvOr (jIndex0 d) d) (some a) vNull)
           "assessment"
         = some (thresholdOutcome amerkCategory (some a)
             (.int 0)).assessment) := by
  constructor
  · intro hb
    simp [fetchDataAMerk, fetchPipeline, hp, hc, authStep, hs, ha, hid, hb]
  · intro hb ht
    refine ⟨?_, rfl, rfl⟩
    simp [fetchDataAMerk, fetchPipeline, hp, hc, authStep, hs, ha, hid,
      hb, ht]

/-- Claim C8 witness: the two failure modes at concrete environments. -/
theorem basic_vs_test_failure_witness :
    fetchDataAMerk env8b ctx0
      = (getFallbackDataAMerk ctx0, [NetCall.auth, NetCall.basicData])
    ∧ fetchDataAMerk env8 ctx0
      = (processDataAMerk ctx0 (jvOr (jIndex0 (vObj [])) (vObj []))
          (some auth8) vNull,
         [NetCall.auth, NetCall.basicData, NetCall.testData]) := by
  refine ⟨?_, ?_⟩
  · exact (basic_vs_test_failure env8b ctx0 auth8 (vObj []) rfl rfl rfl
      rfl rfl).1 rfl
  · exact ((basic_vs_test_failure env8 ctx0 auth8 (vObj []) rfl rfl rfl
      rfl rfl).2 rfl rfl).1

/-- Claim C8 counterexample: with a failed test-result request but a band
containing 0 whose description is "niedrig", the assembled assessment is
"niedrig" rather than the empty string the claim demands. -/
theorem test_failure_assessment_cex :
    (fetchDataAMerk env8 ctx0).2
      = [NetCall.auth, NetCall.basicData, NetCall.testData]
    ∧ objGet (fetchDataAMerk env8 ctx0).1 "assessment"
      = some (vStr "niedrig")
    ∧ vStr "niedrig" ≠ vStr "" := by
  refine ⟨rfl, rfl, ?_⟩
  intro h
  injection h with h'
  exact absurd h' (by decide)

/-- Claim C9: on the unparseable birthdate "a/b/c" (three slash-separated
parts, none numeric) `calculateAge` returns `"NaN,NaN"`, not `"0,0"`: the
`new Date` constructor yields an Invalid Date instead of throwing, so the
`catch` branch that would produce `"0,0"` is never reached and `NaN`
propagates into the result string. -/
theorem calculateAge_unparseable_nan :
    calculateAge ctx0 (vStr "a/b/c") = vStr "NaN,NaN"
    ∧ vStr "NaN,NaN" ≠ vStr "0,0" := by
  refine ⟨rfl, ?_⟩
  intro h
  injection h with h'
  exact absurd h' (by decide)

/-- Claim C10: `processApiData` spreads the raw record last, so any key
present in the raw record keeps its raw value in the output (overriding the
normalized/defaulted value of the same name), and every raw key appears
among the output's keys. -/
theorem processApiData_spread_last (c : Ctx) (apiData : JObj)
    (a : Option AuthData) (k : String) (v : JVal)
    (hv : objGet apiData k = some v) :
    objGet (processApiData c apiData a) k = some v
    ∧ k ∈ objKeys (processApiData c apiData a) := by
  constructor
  · simp only [processApiData]
    exact objGet_append_right _ _ _ _ hv
  · simp only [processApiData, objKeys, List.map_append]
    exact List.mem_append_right _ (mem_keys_of_objGet apiData k v hv)

/-- Claim C10 witness: a raw record carrying `min: "raw"` overrides the
normalized numeric `min` in the output. -/
theorem processApiData_spread_last_witness :
    objGet (processApiData ctx0 [("min", vStr "raw")] none) "min"
      = some (vStr "raw")
    ∧ "min" ∈ objKeys (processApiData ctx0 [("min", vStr "raw")] none) :=
  processApiData_spread_last ctx0 [("min", vStr "raw")] none "min"
    (vStr "raw") rfl
